import Mathlib

/-!
Verification development for the `powershift.cluster` module
(GrahamDumpleton/powershift-cluster, `src/powershift/cluster/__init__.py`).

The module is shallowly embedded: strings are `List Char`, external process
invocations are abstracted as inputs (exit codes / captured results) supplied
through explicit "external world" records, and each CLI command body becomes a
pure function from the profile-store state and those inputs to a result record
(new state, exit code, failure message, and the start command it executed, if
any).  Machine behaviour that only prints status lines is not modelled except
for the failure messages that the claims talk about.
-/

set_option autoImplicit false

namespace Powershift

/-- Strings are modelled as lists of characters (Python `str`). -/
abbrev Str := List Char

/-- The double-quote character used by the `'--flag "%s"'` format strings. -/
def quoteChar : Char := Char.ofNat 34

/-- The newline character. -/
def nlChar : Char := Char.ofNat 10

/-- Characters stripped by Python `str.strip()` (ASCII whitespace). -/
def isPySpace (c : Char) : Bool :=
  c = ' ' || c = Char.ofNat 9 || c = nlChar || c = Char.ofNat 13 ||
    c = Char.ofNat 11 || c = Char.ofNat 12

/-- Python `value.strip()`: drop leading and trailing whitespace. -/
def pstrip (cs : Str) : Str :=
  ((cs.dropWhile isPySpace).reverse.dropWhile isPySpace).reverse

/-- Python `' '.join(fragments)`. -/
def joinSp : List Str → Str
  | [] => []
  | [s] => s
  | s :: t :: r => s ++ ' ' :: joinSp (t :: r)

/-- The `'--flag "%s"' % value` format used throughout the command builder. -/
def quoteArg (flag : Str) (val : Str) : Str :=
  (flag ++ ' ' :: quoteChar :: val) ++ [quoteChar]

/-- `posixpath.join` restricted to the shapes used by the module. -/
def pjoin (a b : Str) : Str :=
  if b.head? = some '/' then b
  else if a.getLast? = some '/' then a ++ b
  else a ++ '/' :: b

/-- Decimal digit characters, indexed by value (used for `'%d'` rendering). -/
def digitChar : Nat → Char
  | 0 => '0' | 1 => '1' | 2 => '2' | 3 => '3' | 4 => '4'
  | 5 => '5' | 6 => '6' | 7 => '7' | 8 => '8' | _ => '9'

/-- Decimal rendering of a natural number (the digits of `'%d'`). -/
def natChars (n : Nat) : Str :=
  if _h : n < 10 then [digitChar n]
  else natChars (n / 10) ++ [digitChar (n % 10)]
decreasing_by exact Nat.div_lt_self (by omega) (by omega)

/-- Python `'%d' % i` for an `int`. -/
def intChars (i : Int) : Str :=
  if i < 0 then '-' :: natChars i.natAbs else natChars i.toNat

/-- Python truthiness of an optional string (`None` and `''` are falsy). -/
def optTruthy : Option Str → Bool
  | none => false
  | some s => !s.isEmpty

/-- `version or 'unknown'` (Python `or` on a possibly-missing string). -/
def pyOrUnknown (v : Option Str) : Str :=
  match v with
  | some s => if s.isEmpty then "unknown".toList else s
  | none => "unknown".toList

/-- The loopback address literal `'127.0.0.1'`. -/
def loopback : Str := "127.0.0.1".toList

/--
The recognised options of `powershift cluster up`, as bound by the `click`
decorators on `command_cluster_up`.  `Option Str` fields default to `None`;
`env` and `noProxy` are the repeated (`multiple=True`) options.
-/
structure Options where
  image : Option Str
  version : Option Str
  publicHostname : Option Str
  routingSuffix : Option Str
  logging : Bool
  metrics : Bool
  volumes : Int
  volumeSize : Str
  loglevel : Int
  serverLoglevel : Int
  env : List Str
  httpProxy : Option Str
  httpsProxy : Option Str
  noProxy : List Str
  identityProvider : Str
  deriving DecidableEq, Repr

/-- `'--flag "%s"' % value` emitted only when the optional value is truthy. -/
def optFrag (flag : Str) : Option Str → List Str
  | none => []
  | some s => if s.isEmpty then [] else [quoteArg flag s]

/-- `'apps.%s.%s.xip.io' % (profile, ipaddr)` (source line 351). -/
def appsSuffix (profile ipv : Str) : Str :=
  ("apps.".toList) ++ profile ++ '.' :: ipv ++ (".xip.io".toList)

/--
The routing suffix after the defaulting logic of source lines 349-353: when
`--routing-suffix` was not supplied, it is synthesised from the profile name
and the resolved IP unless the IP is missing, empty or the loopback address
(the empty string stands for Python's `''`, which suppresses the flag).
-/
def routingSuffixValue (o : Options) (profile : Str) (ip : Option Str) : Str :=
  match o.routingSuffix with
  | none =>
    match ip with
    | some i => if !i.isEmpty && i ≠ loopback then appsSuffix profile i else []
    | none => []
  | some s => s

/--
The `oc cluster up` command fragments assembled by `command_cluster_up`
(lines 311-401 of the source) for a new profile, in source order.  `ip` is the
host IP address resolved from the platform-dependent probe (`None` when it
could not be determined).
-/
def buildCommand (o : Options) (profile : Str) (ip : Option Str) : List Str :=
  let containerProfileDir := pjoin ("/var/lib/powershift/profiles".toList) profile
  let dataDir := pjoin containerProfileDir ("data".toList)
  let configDir := pjoin containerProfileDir ("config".toList)
  let rs : Str := routingSuffixValue o profile ip
  ["oc cluster up".toList]
  ++ (if !(optTruthy o.publicHostname) && optTruthy ip then
        [quoteArg ("--public-hostname".toList) (ip.getD [])] else [])
  ++ (if !rs.isEmpty then [quoteArg ("--routing-suffix".toList) rs] else [])
  ++ [quoteArg ("--host-data-dir".toList) dataDir,
      quoteArg ("--host-config-dir".toList) configDir,
      "--use-existing-config".toList]
  ++ optFrag ("--image".toList) o.image
  ++ optFrag ("--version".toList) o.version
  ++ (if o.logging then ["--logging".toList] else [])
  ++ (if o.metrics then ["--metrics".toList] else [])
  ++ (if o.loglevel ≠ 0 then [("--loglevel ".toList) ++ intChars o.loglevel] else [])
  ++ (if o.serverLoglevel ≠ 0 then
        [("--server-loglevel ".toList) ++ intChars o.serverLoglevel] else [])
  ++ optFrag ("--http-proxy".toList) o.httpProxy
  ++ optFrag ("--https-proxy".toList) o.httpsProxy
  ++ o.noProxy.map (quoteArg ("--no-proxy".toList))
  ++ o.env.map (quoteArg ("--env".toList))
  ++ (if ip ≠ some loopback then ["--forward-ports=false".toList] else [])

/--
The `--public-hostname` workaround appended before the command is persisted
(source lines 420-421): when the user supplied a public hostname it is added
to the saved command only, not to the first run.
-/
def pubExtra (o : Options) : List Str :=
  match o.publicHostname with
  | none => []
  | some h => if h.isEmpty then [] else [quoteArg ("--public-hostname".toList) h]

/--
The exact string written to the profile's `run` file at creation time
(source lines 420-428).
-/
def persisted_run_command (o : Options) (profile : Str) (ip : Option Str) : Str :=
  joinSp (buildCommand o profile ip ++ pubExtra o)

/-- `' --env "%s"' % item`, appended to the replayed command (lines 596-598). -/
def envAppend (item : Str) : Str :=
  (" --env ".toList) ++ quoteChar :: item ++ [quoteChar]

/-- The `--env` overlays appended in input order on every start. -/
def envTail : List Str → Str
  | [] => []
  | it :: rest => envAppend it ++ envTail rest

/-! ### Profile store state -/

/--
The profile store: one entry per profile directory under `<profiles>/`, the
value being the content of the profile's `run` file (`none` when the directory
exists but no `run` file was written), together with the
`<root>/active_profile` marker (`none` when the marker file is absent).
-/
structure ClusterState where
  profiles : List (Str × Option Str)
  marker : Option Str
  deriving DecidableEq, Repr

/--
Directory lookup: finds the entry of the named profile, mirroring both
`profile_names` membership and the `open(run_file)` read.
-/
def findRun (p : Str) : List (Str × Option Str) → Option (Option Str)
  | [] => none
  | (q, r) :: rest => if q = p then some r else findRun p rest

/-! ### Failure messages echoed by the module -/

/-- `'"%s"'`-style quoting inside a message. -/
def quoted (s : Str) : Str := quoteChar :: s ++ [quoteChar]

/-- Python `'%s' % current` where `current` may be `None`. -/
def fmtProfile : Option Str → Str
  | none => "None".toList
  | some s => s

/-- `'Failed: Already running "%s".' % current` (source line 244). -/
def msgAlreadyRunning (current : Option Str) : Str :=
  ("Failed: Already running ".toList) ++ quoted (fmtProfile current) ++ [ '.' ]

def msgHostDirs : Str := "Failed: Cannot create host profile directories.".toList

def msgContainerDirs : Str :=
  "Failed: Cannot create container profile directories.".toList

/-- `'Failed: The "oc cluster up" command failed.'` -/
def msgOcUpFailed : Str :=
  ("Failed: The ".toList) ++ quoted ("oc cluster up".toList)
    ++ (" command failed.".toList)

/-- `'Failed: The "oc cluster down" command failed.'` -/
def msgOcDownFailed : Str :=
  ("Failed: The ".toList) ++ quoted ("oc cluster down".toList)
    ++ (" command failed.".toList)

def msgVersion : Str := "Failed: Unable to determine oc version.".toList

def msgScripts : Str := "Failed: Cannot copy scripts into container.".toList

def msgSudoer : Str := "Failed: Unable to assign sudoer role to developer.".toList

def msgHtpasswdCp : Str := "Failed: Cannot copy htpasswd into container.".toList

def msgEnableHtpasswd : Str := "Failed: Unable to enable password database.".toList

def msgLabels : Str := "Failed: Unable to enable image labels.".toList

def msgSetCluster : Str := "Failed: Unable to setup cluster in kubeconfig.".toList

def msgSetCredentials : Str :=
  "Failed: Unable to set token for context in kubeconfig.".toList

def msgSetContext : Str := "Failed: Unable to setup context in kubeconfig.".toList

def msgUseContext : Str := "Failed: Unable to set context for profile.".toList

def msgInvalid (p : Str) : Str := ("Invalid: ".toList) ++ p

/-! ### The version read-back step of `up` (source lines 430-461) -/

/--
Outcome of `execute_and_capture('oc version --request-timeout 1')` plus the
parse `result.split('\n')[0].split()[1].split('+')[0]`:
* `captured parsed` — the command succeeded; `parsed` is the parsed version
  string, `none` when the parse raised (e.g. empty output);
* `calledProcessError parsed` — the command exited non-zero
  (`subprocess.CalledProcessError`); `parsed` is the parse of `e.output`;
* `otherError` — any other exception while capturing.
-/
inductive VersionOutcome where
  | captured (parsed : Option Str)
  | calledProcessError (parsed : Option Str)
  | otherError
  deriving DecidableEq, Repr

/--
The version read-back step: returns the resulting `origin_version`, or `none`
when the step echoes `'Failed: Unable to determine oc version.'` and calls
`ctx.exit(1)`.  `userVersion` is the `--version` option value.
-/
def versionStep (userVersion : Option Str) : VersionOutcome → Option Str
  | .captured (some v) => some v
  | .captured none =>
    if pyOrUnknown userVersion = "unknown".toList then none
    else some (pyOrUnknown userVersion)
  | .calledProcessError (some v) => some v
  | .calledProcessError none => none
  | .otherError =>
    if pyOrUnknown userVersion = "unknown".toList then none
    else some (pyOrUnknown userVersion)

/-! ### `command_cluster_up` -/

/--
Exit codes and captured results of the external commands run by
`command_cluster_up`, in invocation order.  `instanceRunning` is the
`active_instance()` docker query at entry; `ipaddr` is the host IP resolved by
the platform-dependent probe (lines 317-335), `none` when undetermined;
`sessionContextOk` is whether `session_context().strip().split('/')` yields
exactly three parts (otherwise the unpacking raises and the process dies);
`volumesRc` folds the `volumes create` sub-invocations (0 = all succeeded,
otherwise the exit code of the first failing one); `markerWriteOk` is whether
the best-effort `activate_profile` write succeeded.
-/
structure UpExt where
  instanceRunning : Bool
  ipaddr : Option Str
  hostMkdirOk : Bool
  containerMkdirRc : Int
  firstStartRc : Int
  versionOutcome : VersionOutcome
  scriptsCpRc : Int
  sessionContextOk : Bool
  sudoerRc : Int
  volumesRc : Int
  htpasswdCpRc : Int
  enableHtpasswdRc : Int
  enableLabelsRc : Int
  restartDownRc : Int
  finalStartRc : Int
  setClusterRc : Int
  setCredentialsRc : Int
  setContextRc : Int
  useContextRc : Int
  markerWriteOk : Bool
  deriving DecidableEq, Repr

/--
Result of a lifecycle command: the profile store afterwards, the process exit
code, the `Failed:`/`Invalid:` line echoed on failure (if any; `none` also
covers failures whose message is printed by an invoked subcommand or by an
uncaught exception traceback), and the command string passed to `execute` at
the final `Starting` step (source line 602), if that point was reached.
-/
structure UpResult where
  state : ClusterState
  exit : Int
  failMsg : Option Str
  started : Option Str
  deriving DecidableEq, Repr

/--
The steps of `command_cluster_up` after the replayed start command `cmd` has
been assembled (source lines 600-668): execute it, then the kubeconfig
context steps (the first three only on the creation path), and finally record
the active profile (best-effort).
-/
def upFinish (marker0 : Option Str) (profiles2 : List (Str × Option Str))
    (createProfile : Bool) (e : UpExt) (profile : Str) (cmd : Str) : UpResult :=
  if e.finalStartRc ≠ 0 then
    ⟨⟨profiles2, marker0⟩, e.finalStartRc, some msgOcUpFailed, some cmd⟩
  else if createProfile ∧ e.setClusterRc ≠ 0 then
    ⟨⟨profiles2, marker0⟩, e.setClusterRc, some msgSetCluster, some cmd⟩
  else if createProfile ∧ e.setCredentialsRc ≠ 0 then
    ⟨⟨profiles2, marker0⟩, e.setCredentialsRc, some msgSetCredentials, some cmd⟩
  else if createProfile ∧ e.setContextRc ≠ 0 then
    ⟨⟨profiles2, marker0⟩, e.setContextRc, some msgSetContext, some cmd⟩
  else if e.useContextRc ≠ 0 then
    ⟨⟨profiles2, marker0⟩, e.useContextRc, some msgUseContext, some cmd⟩
  else
    ⟨⟨profiles2, if e.markerWriteOk then some profile else marker0⟩,
      0, none, some cmd⟩

/--
The shared tail of `command_cluster_up` (source lines 586-668): read the
persisted `run` file, strip it, append the `--env` overlays, and run the
finishing steps.  A missing profile entry or a missing `run` file makes the
`open` raise, killing the process with status 1.
-/
def upCommon (marker0 : Option Str) (profiles2 : List (Str × Option Str))
    (createProfile : Bool) (e : UpExt) (profile : Str) (o : Options) : UpResult :=
  match findRun profile profiles2 with
  | none => ⟨⟨profiles2, marker0⟩, 1, none, none⟩
  | some none => ⟨⟨profiles2, marker0⟩, 1, none, none⟩
  | some (some r) =>
    upFinish marker0 profiles2 createProfile e profile
      (pstrip r ++ envTail o.env)

/-- The creation-path steps after the `run` file has been written (source
lines 430-584): version read-back, script copy, sudoer grant, volume
pre-creation, identity provider setup, image-label enabling, and the
`Restarting` stop, ending in the shared start tail.  `profiles1` is the store
with the new profile's entry already present. -/
def upPostCreate (marker0 : Option Str) (profiles1 : List (Str × Option Str))
    (e : UpExt) (profile : Str) (o : Options) : UpResult :=
  match versionStep o.version e.versionOutcome with
  | none => ⟨⟨profiles1, marker0⟩, 1, some msgVersion, none⟩
  | some originVersion =>
    if e.scriptsCpRc ≠ 0 then
      ⟨⟨profiles1, marker0⟩, 1, some msgScripts, none⟩
    else if ¬ e.sessionContextOk then
      ⟨⟨profiles1, marker0⟩, 1, none, none⟩
    else if e.sudoerRc ≠ 0 then
      ⟨⟨profiles1, marker0⟩, e.sudoerRc, some msgSudoer, none⟩
    else if e.volumesRc ≠ 0 then
      ⟨⟨profiles1, marker0⟩, e.volumesRc, none, none⟩
    else if o.identityProvider = ("htpasswd".toList) ∧ e.htpasswdCpRc ≠ 0 then
      ⟨⟨profiles1, marker0⟩, 1, some msgHtpasswdCp, none⟩
    else if o.identityProvider = ("htpasswd".toList) ∧ e.enableHtpasswdRc ≠ 0 then
      ⟨⟨profiles1, marker0⟩, e.enableHtpasswdRc, some msgEnableHtpasswd, none⟩
    else if ((optTruthy o.httpProxy || optTruthy o.httpsProxy ||
          !o.noProxy.isEmpty) &&
          ("v1.5.".toList).isPrefixOf originVersion) = false ∧
        e.enableLabelsRc ≠ 0 then
      ⟨⟨profiles1, marker0⟩, e.enableLabelsRc, some msgLabels, none⟩
    else if e.restartDownRc ≠ 0 then
      ⟨⟨profiles1, marker0⟩, e.restartDownRc, some msgOcDownFailed, none⟩
    else
      upCommon marker0 profiles1 true e profile o

/--
The profile-creation branch of `command_cluster_up` (source lines 252-584):
host and container directory creation, command construction, first start,
persistence of the `run` file, then the post-creation steps.
-/
def upCreate (st : ClusterState) (e : UpExt) (profile : Str) (o : Options) :
    UpResult :=
  if ¬ e.hostMkdirOk then
    ⟨⟨st.profiles ++ [(profile, none)], st.marker⟩, 1, some msgHostDirs, none⟩
  else if e.containerMkdirRc ≠ 0 then
    ⟨⟨st.profiles ++ [(profile, none)], st.marker⟩, e.containerMkdirRc,
      some msgContainerDirs, none⟩
  else if e.firstStartRc ≠ 0 then
    ⟨⟨st.profiles ++ [(profile, none)], st.marker⟩, e.firstStartRc,
      some msgOcUpFailed, none⟩
  else
    upPostCreate st.marker
      (st.profiles ++ [(profile, some (persisted_run_command o profile e.ipaddr))])
      e profile o

/--
`command_cluster_up(ctx, profile, ...)` (source lines 180-668) as a function
of the profile store, the external-world record, the profile argument and the
options.
-/
def command_cluster_up (st : ClusterState) (e : UpExt) (profile : Str)
    (o : Options) : UpResult :=
  if e.instanceRunning then
    if st.marker = some profile then ⟨st, 0, none, none⟩
    else ⟨st, 1, some (msgAlreadyRunning st.marker), none⟩
  else if (findRun profile st.profiles).isNone then
    upCreate st e profile o
  else
    upCommon st.marker st.profiles false e profile o

/-! ### `command_cluster_down` (source lines 670-699) -/

/--
External results for `down`: the `active_instance()` query, the exit code of
`oc cluster down`, and whether the best-effort `cleanup_profile` unlink of the
marker file succeeded (its failures are swallowed).
-/
structure DownExt where
  instanceRunning : Bool
  stopRc : Int
  cleanupOk : Bool
  deriving DecidableEq, Repr

/-- Result of `down`/`destroy`: state, exit code, whether the external stop
command (`oc cluster down`) was invoked, and the failure line echoed. -/
structure StopResult where
  state : ClusterState
  exit : Int
  stopInvoked : Bool
  failMsg : Option Str
  deriving DecidableEq, Repr

def command_cluster_down (st : ClusterState) (e : DownExt) : StopResult :=
  if ¬ e.instanceRunning then ⟨st, 1, false, none⟩
  else if e.stopRc = 0 then
    ⟨⟨st.profiles, if e.cleanupOk then none else st.marker⟩, 0, true, none⟩
  else
    ⟨⟨st.profiles, if e.cleanupOk then none else st.marker⟩, e.stopRc, true,
      some msgOcDownFailed⟩

/-! ### `command_cluster_destroy` (source lines 701-784) -/

/--
External results for `destroy`: the interactive confirmation, the exit code
of `oc cluster down` (used only when the named profile is active), whether the
best-effort marker unlink succeeded, the exit code of the container profile
directory removal (echo-only on failure), and whether `shutil.rmtree`
succeeded (it raises on failure, killing the process).  The image-cleanup loop
is best-effort with no state effect and is not recorded.
-/
structure DestroyExt where
  confirmed : Bool
  stopRc : Int
  cleanupOk : Bool
  containerRmRc : Int
  rmtreeOk : Bool
  deriving DecidableEq, Repr

/-- `shutil.rmtree` of the profile directory: drop the store entry. -/
def removeProfile (p : Str) (l : List (Str × Option Str)) :
    List (Str × Option Str) :=
  l.filter (fun q => q.fst ≠ p)

/-- The tail of `destroy` after the optional stop: image cleanup (no state
effect), container directory removal (echo-only), recursive delete. -/
def destroyRest (st : ClusterState) (e : DestroyExt) (profile : Str)
    (stopped : Bool) : StopResult :=
  if e.rmtreeOk then
    ⟨⟨removeProfile profile st.profiles, st.marker⟩, 0, stopped, none⟩
  else ⟨st, 1, stopped, none⟩

def command_cluster_destroy (st : ClusterState) (e : DestroyExt)
    (profile : Str) : StopResult :=
  if (findRun profile st.profiles).isNone then
    ⟨st, 1, false, some (msgInvalid profile)⟩
  else if ¬ e.confirmed then ⟨st, 1, false, none⟩
  else if st.marker = some profile then
    if e.stopRc ≠ 0 then
      ⟨⟨st.profiles, if e.cleanupOk then none else st.marker⟩, e.stopRc, true,
        some msgOcDownFailed⟩
    else
      destroyRest ⟨st.profiles, if e.cleanupOk then none else st.marker⟩
        e profile true
  else destroyRest st e profile false

/-! ### `command_cluster_users_remove` (source lines 1151-1199) -/

/--
External facts for `users remove`: whether `cluster_running()` holds, the
marker content read by `active_profile` (`none` makes the later
`os.path.join(profiles_dir, None)` raise, killing the process with status 1),
whether the `users.htpasswd` file exists, the interactive confirmation,
whether the named user is present in the database, and the `docker cp` exit
code.
-/
structure UsersRemoveExt where
  clusterRunning : Bool
  marker : Option Str
  passwdFileExists : Bool
  confirmed : Bool
  userExists : Bool
  dockerCpRc : Int
  deriving DecidableEq, Repr

/-- Result of `users remove`: exit code, whether the confirmation prompt was
reached, whether the credential database was read (`HtpasswdFile(...)`), and
whether it was mutated (`db.delete`/`db.save`). -/
structure UsersRemoveResult where
  exit : Int
  prompted : Bool
  dbLoaded : Bool
  dbMutated : Bool
  deriving DecidableEq, Repr

def command_cluster_users_remove (e : UsersRemoveExt) (user : Str) :
    UsersRemoveResult :=
  if ¬ e.clusterRunning then ⟨1, false, false, false⟩
  else
    match e.marker with
    | none => ⟨1, false, false, false⟩
    | some _ =>
      if ¬ e.passwdFileExists then ⟨1, false, false, false⟩
      else if user = ("developer".toList) then ⟨1, false, false, false⟩
      else if ¬ e.confirmed then ⟨1, true, false, false⟩
      else if ¬ e.userExists then ⟨1, true, true, false⟩
      else if e.dockerCpRc ≠ 0 then ⟨1, true, true, true⟩
      else ⟨0, true, true, true⟩

/-! ### `VolumeSize.convert` and `ClaimRef.convert` -/

/--
The inclusive codepoint ranges of Unicode general category Nd (decimal
digits) in Unicode 9.0 — the character database of Python 3.6, the newest
declared Python 3 target of the package (`setup.py` classifiers).  In a
Python 3 `str` pattern, `re`'s `\d` matches exactly the characters of
category Nd.  (Later Unicode versions only add further ranges.)
-/
def ndRanges : List (Nat × Nat) :=
  [(48, 57), (1632, 1641), (1776, 1785), (1984, 1993), (2406, 2415),
   (2534, 2543), (2662, 2671), (2790, 2799), (2918, 2927), (3046, 3055),
   (3174, 3183), (3302, 3311), (3430, 3439), (3558, 3567), (3664, 3673),
   (3792, 3801), (3872, 3881), (4160, 4169), (4240, 4249), (6112, 6121),
   (6160, 6169), (6470, 6479), (6608, 6617), (6784, 6793), (6800, 6809),
   (6992, 7001), (7088, 7097), (7232, 7241), (7248, 7257), (42528, 42537),
   (43216, 43225), (43264, 43273), (43472, 43481), (43504, 43513),
   (43600, 43609), (44016, 44025), (65296, 65305), (66720, 66729),
   (69734, 69743), (69872, 69881), (69942, 69951), (70096, 70105),
   (70384, 70393), (70736, 70745), (70864, 70873), (71248, 71257),
   (71360, 71369), (71472, 71481), (71904, 71913), (72784, 72793),
   (92768, 92777), (93008, 93017), (120782, 120831), (125264, 125273)]

/-- Python 3 `\d` on a `str` pattern: a Unicode decimal digit (general
category Nd). -/
def pyDigit (c : Char) : Bool :=
  ndRanges.any (fun r => r.fst ≤ c.toNat && c.toNat ≤ r.snd)

/--
The language of `\d+[GM]i` anchored at both ends: one or more Unicode
decimal digits (`\d`, category Nd) followed by `Gi` or `Mi`.  This is the
core of the pattern `'^\d+[GM]i$'` of `VolumeSize.convert`.
-/
def sizeCore (cs : Str) : Bool :=
  decide (cs.takeWhile pyDigit ≠ []) &&
    (cs.dropWhile pyDigit = ("Gi".toList) ||
      cs.dropWhile pyDigit = ("Mi".toList))

/--
`re.match('^\d+[GM]i$', value)` truthiness: Python's `$` also matches just
before a newline at the very end of the string, so a single trailing newline
is tolerated.
-/
def volume_size_match (cs : Str) : Bool :=
  sizeCore cs ||
    (match cs.getLast? with
     | some c => c = nlChar && sizeCore cs.dropLast
     | none => false)

/-- `VolumeSize.convert`: returns the value unchanged, or fails (`none`)
before any I/O. -/
def VolumeSize_convert (cs : Str) : Option Str :=
  if volume_size_match cs then some cs else none

/-- Python `value.split('/')` (explicit separator: empty parts are kept). -/
def splitSlash : Str → List Str
  | [] => [[]]
  | c :: rest =>
    match splitSlash rest with
    | [] => [[]]
    | g :: gs => if c = '/' then [] :: g :: gs else (c :: g) :: gs

/-- `ClaimRef.convert`: `project, name = value.split('/')` succeeds exactly
when the split has two parts; otherwise the `ValueError` is caught and the
conversion fails (`none`). -/
def ClaimRef_convert (cs : Str) : Option (Str × Str) :=
  match splitSlash cs with
  | [a, b] => some (a, b)
  | _ => none

/-! ### Helper lemmas: string facts -/

/-- A string whose last character exists and is not Python whitespace. -/
def lastNonSpace (f : Str) : Prop :=
  ∃ c, f.reverse.head? = some c ∧ isPySpace c = false

theorem lastNonSpace_concat {l : Str} {c : Char} (h : isPySpace c = false) :
    lastNonSpace (l ++ [c]) :=
  ⟨c, by rw [List.reverse_concat]; rfl, h⟩

theorem lastNonSpace_append_right {l r : Str} (h : lastNonSpace r) :
    lastNonSpace (l ++ r) := by
  obtain ⟨c, hc, hs⟩ := h
  cases hrev : r.reverse with
  | nil => rw [hrev] at hc; cases hc
  | cons x xs =>
    rw [hrev] at hc
    refine ⟨c, ?_, hs⟩
    rw [List.reverse_append, hrev]
    simpa using hc

theorem lastNonSpace_quoteArg (flag val : Str) : lastNonSpace (quoteArg flag val) :=
  lastNonSpace_concat (by decide)

theorem digitChar_not_space (m : Nat) : isPySpace (digitChar m) = false := by
  match m with
  | 0 | 1 | 2 | 3 | 4 | 5 | 6 | 7 | 8 => decide
  | n + 9 =>
    show isPySpace '9' = false
    decide

theorem natChars_lastNonSpace (n : Nat) : lastNonSpace (natChars n) := by
  rw [natChars]
  split
  · exact ⟨digitChar n, rfl, digitChar_not_space n⟩
  · exact lastNonSpace_concat (digitChar_not_space _)

theorem intChars_lastNonSpace (i : Int) : lastNonSpace (intChars i) := by
  unfold intChars
  split
  · exact lastNonSpace_append_right (l := ['-']) (natChars_lastNonSpace _)
  · exact natChars_lastNonSpace _

theorem joinSp_lastNonSpace : ∀ (l : List Str), l ≠ [] →
    (∀ f ∈ l, lastNonSpace f) → lastNonSpace (joinSp l)
  | [], h, _ => absurd rfl h
  | [s], _, h => by rw [joinSp]; exact h s (by simp)
  | s :: t :: r, _, h => by
    rw [joinSp]
    have ih := joinSp_lastNonSpace (t :: r) (by simp)
      (fun f hf => h f (List.mem_cons_of_mem _ hf))
    exact lastNonSpace_append_right
      (lastNonSpace_append_right (l := [' ']) ih)

theorem pstrip_eq_self {cs : Str}
    (h1 : ∃ c t, cs = c :: t ∧ isPySpace c = false)
    (h2 : lastNonSpace cs) : pstrip cs = cs := by
  obtain ⟨c, t, rfl, hcs⟩ := h1
  obtain ⟨d, hd, hds⟩ := h2
  unfold pstrip
  rw [List.dropWhile_cons, hcs]
  simp only [Bool.false_eq_true, if_false]
  cases hrev : (c :: t).reverse with
  | nil => rw [hrev] at hd; cases hd
  | cons x xs =>
    rw [hrev] at hd
    have hx : x = d := by simpa using hd
    have hxs : isPySpace x = false := by rw [hx]; exact hds
    rw [List.dropWhile_cons, hxs]
    simp only [Bool.false_eq_true, if_false]
    rw [← hrev, List.reverse_reverse]

/-! ### Helper lemmas: fragments of the built command -/

theorem forall_mem_nil {P : Str → Prop} : ∀ f ∈ ([] : List Str), P f := by
  intro f hf; cases hf

theorem forall_mem_singleton {P : Str → Prop} {x : Str} (h : P x) :
    ∀ f ∈ [x], P f := by
  intro f hf; rw [List.mem_singleton] at hf; exact hf ▸ h

theorem forall_mem_ite_cases {P : Str → Prop} {b : Prop} [Decidable b]
    {l₁ l₂ : List Str} (h1 : ∀ f ∈ l₁, P f) (h2 : ∀ f ∈ l₂, P f) :
    ∀ f ∈ (if b then l₁ else l₂), P f := by
  intro f hf
  split at hf
  · exact h1 f hf
  · exact h2 f hf

theorem forall_mem_ite_singleton {P : Str → Prop} {b : Prop} [Decidable b]
    {x : Str} (h : P x) : ∀ f ∈ (if b then [x] else []), P f :=
  forall_mem_ite_cases (forall_mem_singleton h) forall_mem_nil

theorem forall_mem_optFrag {P : Str → Prop} {flag : Str} {v : Option Str}
    (h : ∀ s, P (quoteArg flag s)) : ∀ f ∈ optFrag flag v, P f := by
  intro f hf
  cases v with
  | none => simp [optFrag] at hf
  | some s =>
    simp only [optFrag] at hf
    exact forall_mem_ite_cases forall_mem_nil (forall_mem_singleton (h s)) f hf

theorem forall_mem_map_quote {P : Str → Prop} {flag : Str} {l : List Str}
    (h : ∀ s, P (quoteArg flag s)) : ∀ f ∈ l.map (quoteArg flag), P f := by
  intro f hf
  rw [List.mem_map] at hf
  obtain ⟨s, _, rfl⟩ := hf
  exact h s

theorem forall_mem_pubExtra {P : Str → Prop} {o : Options}
    (h : ∀ s, P (quoteArg ("--public-hostname".toList) s)) :
    ∀ f ∈ pubExtra o, P f := by
  intro f hf
  unfold pubExtra at hf
  cases hph : o.publicHostname with
  | none => simp [hph] at hf
  | some s =>
    simp only [hph] at hf
    exact forall_mem_ite_cases forall_mem_nil (forall_mem_singleton (h s)) f hf

theorem buildCommand_frags_lastNonSpace (o : Options) (p : Str)
    (ip : Option Str) : ∀ f ∈ buildCommand o p ip ++ pubExtra o,
      lastNonSpace f := by
  refine List.forall_mem_append.mpr ⟨?_, forall_mem_pubExtra
    (fun s => lastNonSpace_quoteArg _ s)⟩
  unfold buildCommand
  refine List.forall_mem_append.mpr
    ⟨?_, forall_mem_ite_singleton ⟨'e', by decide, by decide⟩⟩
  refine List.forall_mem_append.mpr
    ⟨?_, forall_mem_map_quote (fun s => lastNonSpace_quoteArg _ s)⟩
  refine List.forall_mem_append.mpr
    ⟨?_, forall_mem_map_quote (fun s => lastNonSpace_quoteArg _ s)⟩
  refine List.forall_mem_append.mpr
    ⟨?_, forall_mem_optFrag (fun s => lastNonSpace_quoteArg _ s)⟩
  refine List.forall_mem_append.mpr
    ⟨?_, forall_mem_optFrag (fun s => lastNonSpace_quoteArg _ s)⟩
  refine List.forall_mem_append.mpr ⟨?_, forall_mem_ite_singleton
    (lastNonSpace_append_right (intChars_lastNonSpace _))⟩
  refine List.forall_mem_append.mpr ⟨?_, forall_mem_ite_singleton
    (lastNonSpace_append_right (intChars_lastNonSpace _))⟩
  refine List.forall_mem_append.mpr
    ⟨?_, forall_mem_ite_singleton ⟨'s', by decide, by decide⟩⟩
  refine List.forall_mem_append.mpr
    ⟨?_, forall_mem_ite_singleton ⟨'g', by decide, by decide⟩⟩
  refine List.forall_mem_append.mpr
    ⟨?_, forall_mem_optFrag (fun s => lastNonSpace_quoteArg _ s)⟩
  refine List.forall_mem_append.mpr
    ⟨?_, forall_mem_optFrag (fun s => lastNonSpace_quoteArg _ s)⟩
  refine List.forall_mem_append.mpr ⟨?_, ?_⟩
  · refine List.forall_mem_append.mpr
      ⟨?_, forall_mem_ite_singleton (lastNonSpace_quoteArg _ _)⟩
    refine List.forall_mem_append.mpr
      ⟨?_, forall_mem_ite_singleton (lastNonSpace_quoteArg _ _)⟩
    intro f hf
    rw [List.mem_singleton] at hf
    exact hf ▸ ⟨'p', by decide, by decide⟩
  · intro f hf
    rcases List.mem_cons.mp hf with rfl | hf
    · exact lastNonSpace_quoteArg _ _
    rcases List.mem_cons.mp hf with rfl | hf
    · exact lastNonSpace_quoteArg _ _
    rw [List.mem_singleton] at hf
    exact hf ▸ ⟨'g', by decide, by decide⟩

theorem buildCommand_cons (o : Options) (p : Str) (ip : Option Str) :
    ∃ rest, buildCommand o p ip ++ pubExtra o =
      ("oc cluster up".toList) :: rest := by
  unfold buildCommand
  simp only [List.append_assoc, List.singleton_append, List.cons_append]
  exact ⟨_, rfl⟩

theorem joinSp_cons_head (c : Char) (t : Str) (rest : List Str) :
    ∃ u, joinSp ((c :: t) :: rest) = c :: u := by
  cases rest with
  | nil => exact ⟨t, rfl⟩
  | cons a r => rw [joinSp]; exact ⟨_, rfl⟩

/-- The persisted run command is unchanged by the `read().strip()` on replay:
it starts with `oc` and every fragment ends with a non-whitespace character. -/
theorem pstrip_persisted (o : Options) (p : Str) (ip : Option Str) :
    pstrip (persisted_run_command o p ip) = persisted_run_command o p ip := by
  unfold persisted_run_command
  obtain ⟨rest, hrest⟩ := buildCommand_cons o p ip
  apply pstrip_eq_self
  · have : ("oc cluster up".toList) = 'o' :: ("c cluster up".toList) := by decide
    rw [hrest, this]
    obtain ⟨u, hu⟩ := joinSp_cons_head 'o' ("c cluster up".toList) rest
    exact ⟨'o', u, hu, by decide⟩
  · refine joinSp_lastNonSpace _ ?_ (buildCommand_frags_lastNonSpace o p ip)
    rw [hrest]; simp

/-! ### Helper lemmas: the profile store -/

theorem findRun_append (p : Str) (l₁ l₂ : List (Str × Option Str)) :
    findRun p (l₁ ++ l₂) =
      match findRun p l₁ with
      | some x => some x
      | none => findRun p l₂ := by
  induction l₁ with
  | nil => rfl
  | cons e t ih =>
    obtain ⟨q, r⟩ := e
    by_cases hq : q = p <;> simp [findRun, hq, ih]

theorem findRun_append_right {p : Str} {l : List (Str × Option Str)}
    (h : findRun p l = none) (x : Option Str) :
    findRun p (l ++ [(p, x)]) = some x := by
  rw [findRun_append, h]
  simp [findRun]

theorem findRun_append_isSome {p : Str} {l₁ : List (Str × Option Str)}
    (l₂ : List (Str × Option Str)) (h : (findRun p l₁).isSome = true) :
    (findRun p (l₁ ++ l₂)).isSome = true := by
  rw [findRun_append]
  cases h' : findRun p l₁ with
  | none => rw [h'] at h; cases h
  | some x => simp

theorem findRun_removeProfile {c p : Str} (h : c ≠ p)
    (l : List (Str × Option Str)) :
    findRun c (removeProfile p l) = findRun c l := by
  induction l with
  | nil => rfl
  | cons hd t ih =>
    obtain ⟨q, r⟩ := hd
    by_cases hq : q = p
    · subst hq
      have hqc : ¬ q = c := fun hh => h hh.symm
      have h1 : findRun c ((q, r) :: t) = findRun c t := by
        simp [findRun, hqc]
      have h2 : removeProfile q ((q, r) :: t) = removeProfile q t := by
        simp [removeProfile, List.filter_cons]
      rw [h2, h1, ih]
    · have h2 : removeProfile p ((q, r) :: t) =
          (q, r) :: removeProfile p t := by
        simp [removeProfile, List.filter_cons, hq]
      rw [h2]
      by_cases hqc : q = c
      · simp [findRun, hqc]
      · simp [findRun, hqc, ih]

/-! ### Helper lemmas: reductions of the lifecycle operations -/

theorem upFinish_profiles (marker0 : Option Str)
    (profiles2 : List (Str × Option Str)) (cf : Bool) (e : UpExt)
    (profile : Str) (cmd : Str) :
    (upFinish marker0 profiles2 cf e profile cmd).state.profiles =
      profiles2 := by
  unfold upFinish
  repeat' split
  all_goals rfl

theorem upFinish_started (marker0 : Option Str)
    (profiles2 : List (Str × Option Str)) (cf : Bool) (e : UpExt)
    (profile : Str) (cmd : Str) :
    (upFinish marker0 profiles2 cf e profile cmd).started = some cmd := by
  unfold upFinish
  repeat' split
  all_goals rfl

theorem upCommon_profiles (marker0 : Option Str)
    (profiles2 : List (Str × Option Str)) (cf : Bool) (e : UpExt)
    (profile : Str) (o : Options) :
    (upCommon marker0 profiles2 cf e profile o).state.profiles = profiles2 := by
  unfold upCommon
  split
  · rfl
  · rfl
  · exact upFinish_profiles _ _ _ _ _ _

theorem upCommon_started {profile : Str} {profiles2 : List (Str × Option Str)}
    {r : Str} (marker0 : Option Str) (cf : Bool) (e : UpExt) (o : Options)
    (h : findRun profile profiles2 = some (some r)) :
    (upCommon marker0 profiles2 cf e profile o).started =
      some (pstrip r ++ envTail o.env) := by
  unfold upCommon
  rw [h]
  exact upFinish_started _ _ _ _ _ _

theorem upPostCreate_profiles (marker0 : Option Str)
    (profiles1 : List (Str × Option Str)) (e : UpExt) (p : Str) (o : Options) :
    (upPostCreate marker0 profiles1 e p o).state.profiles = profiles1 := by
  unfold upPostCreate
  repeat' split
  all_goals first
    | rfl
    | exact upCommon_profiles _ _ _ _ _ _

theorem upCreate_profiles {e : UpExt} (st : ClusterState) (p : Str)
    (o : Options) (h1 : e.hostMkdirOk = true) (h2 : e.containerMkdirRc = 0)
    (h3 : e.firstStartRc = 0) :
    (upCreate st e p o).state.profiles =
      st.profiles ++ [(p, some (persisted_run_command o p e.ipaddr))] := by
  unfold upCreate
  rw [if_neg (by simp [h1]), if_neg (by simp [h2]), if_neg (by simp [h3])]
  exact upPostCreate_profiles _ _ _ _ _

/-- A fully successful external world for `up` (every command exits 0, all
best-effort writes succeed), parameterised by the resolved host IP and the
version-query outcome. -/
def allOk (ip : Option Str) (vo : VersionOutcome) : UpExt :=
  ⟨false, ip, true, 0, 0, vo, 0, true, 0, 0, 0, 0, 0, 0, 0, 0, 0, 0, 0, true⟩

theorem up_create_success (st : ClusterState) (ip : Option Str) (v : Str)
    (p : Str) (o : Options) (hfresh : findRun p st.profiles = none) :
    command_cluster_up st (allOk ip (.captured (some v))) p o =
      ⟨⟨st.profiles ++ [(p, some (persisted_run_command o p ip))], some p⟩, 0,
        none,
        some (pstrip (persisted_run_command o p ip) ++ envTail o.env)⟩ := by
  simp only [command_cluster_up, upCreate, upPostCreate, upCommon, upFinish,
    allOk, versionStep, hfresh, findRun_append_right hfresh]
  simp

theorem up_already_running {st : ClusterState} {e : UpExt} {p : Str}
    (o : Options) (h1 : e.instanceRunning = true) (h2 : st.marker = some p) :
    command_cluster_up st e p o = ⟨st, 0, none, none⟩ := by
  unfold command_cluster_up
  rw [h1, h2]
  simp

theorem up_conflict {st : ClusterState} {e : UpExt} {p c : Str} (o : Options)
    (h1 : e.instanceRunning = true) (h2 : st.marker = some c) (h3 : c ≠ p) :
    command_cluster_up st e p o =
      ⟨st, 1, some (msgAlreadyRunning (some c)), none⟩ := by
  unfold command_cluster_up
  rw [h1, h2]
  simp [h3]

theorem up_replay {st : ClusterState} {e : UpExt} {p : Str} {r : Str}
    (o : Options) (h0 : e.instanceRunning = false)
    (h1 : findRun p st.profiles = some (some r)) :
    (command_cluster_up st e p o).started =
      some (pstrip r ++ envTail o.env) := by
  unfold command_cluster_up
  rw [h0]
  simp only [Bool.false_eq_true, if_false, h1, Option.isNone_some, ite_false]
  exact upCommon_started _ _ _ _ h1

theorem up_fresh {st : ClusterState} {e : UpExt} {p : Str} (o : Options)
    (h0 : e.instanceRunning = false) (hfresh : findRun p st.profiles = none) :
    command_cluster_up st e p o = upCreate st e p o := by
  unfold command_cluster_up
  rw [h0, hfresh]
  simp

theorem up_existing {st : ClusterState} {e : UpExt} {p : Str} {x : Option Str}
    (o : Options) (h0 : e.instanceRunning = false)
    (hfound : findRun p st.profiles = some x) :
    command_cluster_up st e p o =
      upCommon st.marker st.profiles false e p o := by
  unfold command_cluster_up
  rw [h0, hfound]
  simp

theorem up_replay_success {st : ClusterState} {e : UpExt} {p r : Str}
    (o : Options) (h0 : e.instanceRunning = false)
    (h1 : findRun p st.profiles = some (some r)) (h2 : e.finalStartRc = 0)
    (h3 : e.useContextRc = 0) (h4 : e.markerWriteOk = true) :
    command_cluster_up st e p o =
      ⟨⟨st.profiles, some p⟩, 0, none, some (pstrip r ++ envTail o.env)⟩ := by
  rw [up_existing o h0 h1]
  unfold upCommon
  rw [h1]
  unfold upFinish
  dsimp only
  rw [if_neg (by simp [h2]), if_neg (by simp), if_neg (by simp),
    if_neg (by simp), if_neg (by simp [h3])]
  simp [h4]

theorem down_profiles (st : ClusterState) (e : DownExt) :
    (command_cluster_down st e).state.profiles = st.profiles := by
  unfold command_cluster_down
  repeat' split
  all_goals rfl

theorem down_no_instance {e : DownExt} (st : ClusterState)
    (h : e.instanceRunning = false) :
    command_cluster_down st e = ⟨st, 1, false, none⟩ := by
  unfold command_cluster_down
  rw [if_pos (by simp [h])]

theorem down_stop {e : DownExt} (st : ClusterState)
    (h1 : e.instanceRunning = true) (h2 : e.cleanupOk = true) :
    (command_cluster_down st e).stopInvoked = true ∧
    (command_cluster_down st e).state.marker = none ∧
    (command_cluster_down st e).exit = e.stopRc := by
  unfold command_cluster_down
  rw [if_neg (by simp [h1])]
  split
  · next hrc => exact ⟨rfl, by simp [h2], by rw [hrc]⟩
  · exact ⟨rfl, by simp [h2], rfl⟩

theorem destroy_active {e : DestroyExt} (st : ClusterState) (p : Str)
    (hfound : findRun p st.profiles ≠ none) (hconf : e.confirmed = true)
    (hactive : st.marker = some p) (hclean : e.cleanupOk = true) :
    (command_cluster_destroy st e p).stopInvoked = true ∧
    (command_cluster_destroy st e p).state.marker = none ∧
    (e.stopRc ≠ 0 → (command_cluster_destroy st e p).exit = e.stopRc) := by
  unfold command_cluster_destroy
  rw [if_neg (by simp [Option.isNone_iff_eq_none, hfound]),
    if_neg (by simp [hconf]), if_pos hactive]
  split
  · exact ⟨rfl, by simp [hclean], fun _ => rfl⟩
  · next hrc =>
    unfold destroyRest
    split
    · exact ⟨rfl, by simp [hclean], fun hh => absurd hh hrc⟩
    · exact ⟨rfl, by simp [hclean], fun hh => absurd hh hrc⟩

/-! ### The marker-names-an-existing-profile invariant -/

/-- The Active Profile Marker, when present, names a profile whose directory
exists in the store. -/
def markerOk (st : ClusterState) : Prop :=
  ∀ c, st.marker = some c → (findRun c st.profiles).isSome = true

theorem upFinish_marker (marker0 : Option Str)
    (profiles2 : List (Str × Option Str)) (cf : Bool) (e : UpExt)
    (profile : Str) (cmd : Str) :
    (upFinish marker0 profiles2 cf e profile cmd).state.marker = marker0 ∨
    (upFinish marker0 profiles2 cf e profile cmd).state.marker =
      some profile := by
  unfold upFinish
  repeat' split
  all_goals first | exact Or.inl rfl | exact Or.inr rfl

theorem upFinish_markerOk {marker0 : Option Str}
    {profiles2 : List (Str × Option Str)} {profile : Str} (cf : Bool)
    (e : UpExt) (cmd : Str)
    (h : ∀ c, marker0 = some c → (findRun c profiles2).isSome = true)
    (hp : (findRun profile profiles2).isSome = true) :
    markerOk (upFinish marker0 profiles2 cf e profile cmd).state := by
  intro c hc
  rw [upFinish_profiles]
  rcases upFinish_marker marker0 profiles2 cf e profile cmd with h1 | h1
  · exact h c (by rw [← h1]; exact hc)
  · rw [h1] at hc
    exact (Option.some.inj hc) ▸ hp

theorem upCommon_markerOk (marker0 : Option Str)
    (profiles2 : List (Str × Option Str)) (cf : Bool) (e : UpExt)
    (profile : Str) (o : Options)
    (h : ∀ c, marker0 = some c → (findRun c profiles2).isSome = true) :
    markerOk (upCommon marker0 profiles2 cf e profile o).state := by
  unfold upCommon
  split
  · exact fun c hc => h c hc
  · exact fun c hc => h c hc
  · next x r heq => exact upFinish_markerOk _ _ _ h (by rw [heq]; rfl)

theorem upPostCreate_markerOk (marker0 : Option Str)
    (profiles1 : List (Str × Option Str)) (e : UpExt) (p : Str) (o : Options)
    (h : ∀ c, marker0 = some c → (findRun c profiles1).isSome = true) :
    markerOk (upPostCreate marker0 profiles1 e p o).state := by
  unfold upPostCreate
  repeat' split
  all_goals
    first
    | exact fun c hc => h c hc
    | exact upCommon_markerOk _ _ _ _ _ _ h

theorem upCreate_markerOk (st : ClusterState) (e : UpExt) (p : Str)
    (o : Options) (h : markerOk st) : markerOk (upCreate st e p o).state := by
  unfold upCreate
  repeat' split
  all_goals
    first
    | exact fun c hc => findRun_append_isSome _ (h c hc)
    | exact upPostCreate_markerOk _ _ _ _ _
        (fun c hc => findRun_append_isSome _ (h c hc))

theorem up_markerOk (st : ClusterState) (e : UpExt) (p : Str) (o : Options)
    (h : markerOk st) : markerOk (command_cluster_up st e p o).state := by
  unfold command_cluster_up
  repeat' split
  · exact h
  · exact h
  · exact upCreate_markerOk _ _ _ _ h
  · exact upCommon_markerOk _ _ _ _ _ _ h

theorem down_markerOk (st : ClusterState) (e : DownExt) (h : markerOk st) :
    markerOk (command_cluster_down st e).state := by
  unfold command_cluster_down
  repeat' split
  all_goals intro c hc
  all_goals first
    | exact h c hc
    | exact Option.noConfusion hc

theorem destroyRest_markerOk (st : ClusterState) (e : DestroyExt) (p : Str)
    (stopped : Bool) (hcp : ∀ c, st.marker = some c → c ≠ p)
    (h : markerOk st) : markerOk (destroyRest st e p stopped).state := by
  unfold destroyRest
  split
  · intro c hc
    show (findRun c (removeProfile p st.profiles)).isSome = true
    rw [findRun_removeProfile (hcp c hc)]
    exact h c hc
  · exact fun c hc => h c hc

theorem destroy_markerOk (st : ClusterState) (e : DestroyExt) (p : Str)
    (hclean : e.cleanupOk = true) (h : markerOk st) :
    markerOk (command_cluster_destroy st e p).state := by
  unfold command_cluster_destroy
  split
  · exact fun c hc => h c hc
  split
  · exact fun c hc => h c hc
  split
  · split
    · intro c hc
      simp [hclean] at hc
    · exact destroyRest_markerOk _ _ _ _
        (fun c hc => by simp [hclean] at hc)
        (fun c hc => by simp [hclean] at hc)
  · next hna =>
    exact destroyRest_markerOk _ _ _ _
      (fun c hc hcp => hna (by rw [← hcp]; exact hc)) h

/-! ### Helper lemmas: the routing-suffix flag (claim C7) -/

/-- The `--routing-suffix` flag name. -/
def rsFlag : Str := "--routing-suffix".toList

theorem forall_mem_ite_neg {P : Str → Prop} {b : Prop} [Decidable b]
    {l₁ l₂ : List Str} (hb : ¬ b) (h2 : ∀ f ∈ l₂, P f) :
    ∀ f ∈ (if b then l₁ else l₂), P f := by
  intro f hf
  rw [if_neg hb] at hf
  exact h2 f hf

theorem not_rs_of_take3 {l : Str} (h : l.take 3 ≠ ['-', '-', 'r']) :
    ¬ rsFlag <+: l := by
  intro hp
  obtain ⟨t, ht⟩ := hp
  apply h
  rw [← ht, List.take_append_of_le_length (by decide)]
  decide

theorem not_rs_append {c : Str} (h3 : 3 ≤ c.length)
    (hne : c.take 3 ≠ ['-', '-', 'r']) (v : Str) : ¬ rsFlag <+: (c ++ v) := by
  apply not_rs_of_take3
  rw [List.take_append_of_le_length h3]
  exact hne

theorem not_rs_quoteArg {fl : Str} (h3 : 3 ≤ fl.length)
    (hne : fl.take 3 ≠ ['-', '-', 'r']) (v : Str) :
    ¬ rsFlag <+: quoteArg fl v := by
  unfold quoteArg
  apply not_rs_of_take3
  rw [List.take_append_of_le_length
      (by simp only [List.length_append, List.length_cons]; omega),
    List.take_append_of_le_length h3]
  exact hne

theorem routingSuffixValue_nil {o : Options} {ip : Option Str} (p : Str)
    (hrs : o.routingSuffix = none) (hip : ip = none ∨ ip = some loopback) :
    routingSuffixValue o p ip = [] := by
  unfold routingSuffixValue
  rw [hrs]
  rcases hip with rfl | rfl
  · rfl
  · simp

theorem routingSuffixValue_apps {o : Options} {i : Str} (p : Str)
    (hrs : o.routingSuffix = none) (hne : i ≠ []) (hnl : i ≠ loopback) :
    routingSuffixValue o p (some i) = appsSuffix p i := by
  unfold routingSuffixValue
  rw [hrs]
  simp [hne, hnl]

theorem buildCommand_no_rs (o : Options) (p : Str) (ip : Option Str)
    (hrs : o.routingSuffix = none) (hip : ip = none ∨ ip = some loopback) :
    ∀ f ∈ buildCommand o p ip, ¬ rsFlag <+: f := by
  have hval := routingSuffixValue_nil p hrs hip
  unfold buildCommand
  refine List.forall_mem_append.mpr
    ⟨?_, forall_mem_ite_singleton (not_rs_of_take3 (by decide))⟩
  refine List.forall_mem_append.mpr
    ⟨?_, forall_mem_map_quote (fun s => not_rs_quoteArg (by decide) (by decide) s)⟩
  refine List.forall_mem_append.mpr
    ⟨?_, forall_mem_map_quote (fun s => not_rs_quoteArg (by decide) (by decide) s)⟩
  refine List.forall_mem_append.mpr
    ⟨?_, forall_mem_optFrag (fun s => not_rs_quoteArg (by decide) (by decide) s)⟩
  refine List.forall_mem_append.mpr
    ⟨?_, forall_mem_optFrag (fun s => not_rs_quoteArg (by decide) (by decide) s)⟩
  refine List.forall_mem_append.mpr
    ⟨?_, forall_mem_ite_singleton (not_rs_append (by decide) (by decide) _)⟩
  refine List.forall_mem_append.mpr
    ⟨?_, forall_mem_ite_singleton (not_rs_append (by decide) (by decide) _)⟩
  refine List.forall_mem_append.mpr
    ⟨?_, forall_mem_ite_singleton (not_rs_of_take3 (by decide))⟩
  refine List.forall_mem_append.mpr
    ⟨?_, forall_mem_ite_singleton (not_rs_of_take3 (by decide))⟩
  refine List.forall_mem_append.mpr
    ⟨?_, forall_mem_optFrag (fun s => not_rs_quoteArg (by decide) (by decide) s)⟩
  refine List.forall_mem_append.mpr
    ⟨?_, forall_mem_optFrag (fun s => not_rs_quoteArg (by decide) (by decide) s)⟩
  refine List.forall_mem_append.mpr ⟨?_, ?_⟩
  · refine List.forall_mem_append.mpr
      ⟨?_, forall_mem_ite_neg (by rw [hval]; decide) forall_mem_nil⟩
    refine List.forall_mem_append.mpr
      ⟨?_, forall_mem_ite_singleton (not_rs_quoteArg (by decide) (by decide) _)⟩
    intro f hf
    rw [List.mem_singleton] at hf
    exact hf ▸ not_rs_of_take3 (by decide)
  · intro f hf
    rcases List.mem_cons.mp hf with rfl | hf
    · exact not_rs_quoteArg (by decide) (by decide) _
    rcases List.mem_cons.mp hf with rfl | hf
    · exact not_rs_quoteArg (by decide) (by decide) _
    rw [List.mem_singleton] at hf
    exact hf ▸ not_rs_of_take3 (by decide)

theorem buildCommand_rs_mem (o : Options) (p : Str) (i : Str)
    (hrs : o.routingSuffix = none) (hne : i ≠ []) (hnl : i ≠ loopback) :
    quoteArg rsFlag (appsSuffix p i) ∈ buildCommand o p (some i) := by
  have hval := routingSuffixValue_apps p hrs hne hnl
  unfold buildCommand
  refine List.mem_append_left _ (List.mem_append_left _ (List.mem_append_left _
    (List.mem_append_left _ (List.mem_append_left _ (List.mem_append_left _
    (List.mem_append_left _ (List.mem_append_left _ (List.mem_append_left _
    (List.mem_append_left _ (List.mem_append_left _ (List.mem_append_left _
    (List.mem_append_right _ ?_))))))))))))
  rw [hval]
  rw [if_pos (show (!(appsSuffix p i).isEmpty) = true by simp [appsSuffix])]
  exact List.mem_singleton.mpr rfl

/-! ### Helper lemmas: the volume-size pattern (claim C8) -/

theorem takeWhile_dropWhile_app (p : Char → Bool) :
    ∀ (d r : Str), (∀ c ∈ d, p c = true) →
      (∀ c, r.head? = some c → p c = false) →
      (d ++ r).takeWhile p = d ∧ (d ++ r).dropWhile p = r := by
  intro d
  induction d with
  | nil =>
    intro r _ hr
    cases r with
    | nil => exact ⟨rfl, rfl⟩
    | cons c t =>
      have hc := hr c rfl
      constructor
      · rw [List.nil_append, List.takeWhile_cons, hc]
        simp
      · rw [List.nil_append, List.dropWhile_cons, hc]
        simp
  | cons a d ih =>
    intro r hd hr
    have ha := hd a (List.mem_cons_self a d)
    obtain ⟨ht, hdp⟩ := ih r (fun c hc => hd c (List.mem_cons_of_mem _ hc)) hr
    constructor
    · rw [List.cons_append, List.takeWhile_cons, ha]
      simp [ht]
    · rw [List.cons_append, List.dropWhile_cons, ha]
      simp [hdp]

/-- Characterisation of the core pattern `\d+[GM]i`: exactly a non-empty
block of Unicode decimal digits followed by `Gi` or `Mi`. -/
theorem sizeCore_eq_true_iff (cs : Str) : sizeCore cs = true ↔
    ∃ d s, d ≠ [] ∧ (∀ c ∈ d, pyDigit c = true) ∧
      (s = ("Gi".toList) ∨ s = ("Mi".toList)) ∧ cs = d ++ s := by
  constructor
  · intro h
    unfold sizeCore at h
    rw [Bool.and_eq_true, decide_eq_true_eq, Bool.or_eq_true,
      decide_eq_true_eq, decide_eq_true_eq] at h
    obtain ⟨hne, hor⟩ := h
    exact ⟨cs.takeWhile pyDigit, cs.dropWhile pyDigit, hne,
      fun c hc => List.mem_takeWhile_imp hc, hor,
      (List.takeWhile_append_dropWhile _ _).symm⟩
  · rintro ⟨d, s, hd, hdig, hs, rfl⟩
    have hhead : ∀ c, s.head? = some c → pyDigit c = false := by
      rcases hs with rfl | rfl <;> intro c hc <;> cases hc <;> decide
    obtain ⟨ht, hdp⟩ := takeWhile_dropWhile_app pyDigit d s hdig hhead
    unfold sizeCore
    rw [ht, hdp]
    rcases hs with rfl | rfl <;> simp [hd]

theorem volume_size_match_iff (cs : Str) : volume_size_match cs = true ↔
    ∃ d s, d ≠ [] ∧ (∀ c ∈ d, pyDigit c = true) ∧
      (s = ("Gi".toList) ∨ s = ("Mi".toList)) ∧
      (cs = d ++ s ∨ cs = d ++ s ++ [nlChar]) := by
  unfold volume_size_match
  constructor
  · intro h
    rw [Bool.or_eq_true] at h
    rcases h with h | h
    · obtain ⟨d, s, h1, h2, h3, h4⟩ := (sizeCore_eq_true_iff cs).mp h
      exact ⟨d, s, h1, h2, h3, Or.inl h4⟩
    · rcases hg : cs.getLast? with _ | c
      · rw [hg] at h; cases h
      · rw [hg] at h
        rw [Bool.and_eq_true, decide_eq_true_eq] at h
        obtain ⟨rfl, hcore⟩ := h
        obtain ⟨d, s, h1, h2, h3, h4⟩ := (sizeCore_eq_true_iff _).mp hcore
        refine ⟨d, s, h1, h2, h3, Or.inr ?_⟩
        have hne : cs ≠ [] := by
          intro hcs
          rw [hcs] at hg
          cases hg
        have hsplit := List.dropLast_append_getLast hne
        rw [List.getLast?_eq_getLast cs hne] at hg
        have hlast : cs.getLast hne = nlChar := Option.some.inj hg
        rw [← hsplit, h4, hlast]
  · rintro ⟨d, s, h1, h2, h3, h4⟩
    rw [Bool.or_eq_true]
    rcases h4 with rfl | rfl
    · exact Or.inl ((sizeCore_eq_true_iff _).mpr ⟨d, s, h1, h2, h3, rfl⟩)
    · refine Or.inr ?_
      rw [List.getLast?_concat]
      rw [Bool.and_eq_true, decide_eq_true_eq]
      exact ⟨rfl, by
        rw [List.dropLast_concat]
        exact (sizeCore_eq_true_iff _).mpr ⟨d, s, h1, h2, h3, rfl⟩⟩

/-! ### Helper lemmas: the claim-reference split (claim C9) -/

theorem splitSlash_ne_nil (cs : Str) : splitSlash cs ≠ [] := by
  induction cs with
  | nil => simp [splitSlash]
  | cons c t ih =>
    cases h : splitSlash t with
    | nil => exact absurd h ih
    | cons g gs =>
      unfold splitSlash
      rw [h]
      dsimp only
      split <;> simp

theorem splitSlash_length (cs : Str) :
    (splitSlash cs).length = cs.count '/' + 1 := by
  induction cs with
  | nil => rfl
  | cons c t ih =>
    cases h : splitSlash t with
    | nil => exact absurd h (splitSlash_ne_nil t)
    | cons g gs =>
      rw [h] at ih
      unfold splitSlash
      rw [h]
      dsimp only
      by_cases hc : c = '/'
      · rw [if_pos hc]
        subst hc
        simp only [List.length_cons, List.count_cons, beq_self_eq_true,
          if_true] at ih ⊢
        omega
      · rw [if_neg hc]
        have hbeq : (c == '/') = false := by
          simpa using hc
        simp only [List.length_cons, List.count_cons, hbeq,
          Bool.false_eq_true, if_false] at ih ⊢
        omega

theorem ClaimRef_reject {cs : Str} (h : cs.count '/' ≠ 1) :
    ClaimRef_convert cs = none := by
  have hlen := splitSlash_length cs
  rcases hsp : splitSlash cs with _ | ⟨a, _ | ⟨b, _ | ⟨c, rest⟩⟩⟩
  · unfold ClaimRef_convert
    rw [hsp]
  · unfold ClaimRef_convert
    rw [hsp]
  · exfalso
    rw [hsp] at hlen
    simp only [List.length_cons, List.length_nil] at hlen
    exact h (by omega)
  · unfold ClaimRef_convert
    rw [hsp]

/-! ### Concrete fixtures used by the witnesses -/

/-- Fixture profile name. -/
def wProfile : Str := "research".toList

/-- Fixture resolved host IP. -/
def wIp : Str := "10.0.0.5".toList

/-- Fixture parsed version string. -/
def wVer : Str := "v3.6.0".toList

/-- Fixture creation-time options (several non-default flags set). -/
def wOpts1 : Options :=
  ⟨none, none, some ("master.example.com".toList), none, true, false, 10,
    "10Gi".toList, 2, 0, ["A=1".toList], none, none, [], "none".toList⟩

/-- Fixture second-call options, deliberately different from `wOpts1` in every
configurable flag, with a fresh `--env` entry. -/
def wOpts2 : Options :=
  ⟨some ("registry.example.com/origin".toList), some ("v1.4.1".toList), none,
    some ("apps.example.com".toList), false, true, 5, "5Gi".toList, 0, 3,
    ["B=2".toList], some ("proxy:3128".toList), none, ["10.0.0.0/8".toList],
    "htpasswd".toList⟩

/-- Fixture all-defaults options. -/
def wOptsDefault : Options :=
  ⟨none, none, none, none, false, false, 10, "10Gi".toList, 0, 0, [], none,
    none, [], "none".toList⟩

/-- Fixture fully successful creation-time external world. -/
def wExt1 : UpExt := allOk (some wIp) (.captured (some wVer))

/-- Fixture fully successful replay-time external world. -/
def wExt2 : UpExt := allOk none .otherError

/-- Fixture external world with a reachable instance at entry. -/
def wRunningExt : UpExt :=
  ⟨true, none, true, 0, 0, .otherError, 0, true, 0, 0, 0, 0, 0, 0, 0, 0, 0,
    0, 0, true⟩

/-- Fixture empty store. -/
def wState0 : ClusterState := ⟨[], none⟩

/-- Fixture store with one profile `default` that is the active profile. -/
def wStateDefault : ClusterState :=
  ⟨[(("default".toList), some ("oc cluster up".toList))],
    some ("default".toList)⟩

/-- Fixture `down` world: instance reachable, stop succeeds. -/
def wDownOk : DownExt := ⟨true, 0, true⟩

/-- Fixture `down` world: instance reachable, stop fails with status 2. -/
def wDownFail : DownExt := ⟨true, 2, true⟩

/-- Fixture `destroy` world: confirmed, stop fails with status 3. -/
def wDestroyFail : DestroyExt := ⟨true, 3, true, 0, true⟩

/-! ### The claims -/

/--
C1: for every profile created by `up`, the fully assembled start command
(including the `--public-hostname` workaround addition of lines 420-421) is
persisted verbatim as the profile's `run_command` at creation time, and every
subsequent `up` for that profile — here after an intervening `down` with an
arbitrary outcome — executes exactly that persisted string with only the
newly supplied `--env` entries appended, whatever the second call's options
`o2` are otherwise.
-/
theorem claim_C1 (st0 : ClusterState) (p : Str) (o1 o2 : Options)
    (e1 e2 : UpExt) (d : DownExt)
    (hfresh : findRun p st0.profiles = none)
    (h0 : e1.instanceRunning = false) (h1 : e1.hostMkdirOk = true)
    (h2 : e1.containerMkdirRc = 0) (h3 : e1.firstStartRc = 0)
    (h4 : e2.instanceRunning = false) :
    findRun p (command_cluster_up st0 e1 p o1).state.profiles =
      some (some (persisted_run_command o1 p e1.ipaddr)) ∧
    (command_cluster_up
        (command_cluster_down (command_cluster_up st0 e1 p o1).state d).state
        e2 p o2).started =
      some (persisted_run_command o1 p e1.ipaddr ++ envTail o2.env) := by
  have hprof : (command_cluster_up st0 e1 p o1).state.profiles =
      st0.profiles ++ [(p, some (persisted_run_command o1 p e1.ipaddr))] := by
    rw [up_fresh o1 h0 hfresh]
    exact upCreate_profiles st0 p o1 h1 h2 h3
  have hfind : findRun p (command_cluster_up st0 e1 p o1).state.profiles =
      some (some (persisted_run_command o1 p e1.ipaddr)) := by
    rw [hprof]
    exact findRun_append_right hfresh _
  refine ⟨hfind, ?_⟩
  have hfind2 : findRun p (command_cluster_down
      (command_cluster_up st0 e1 p o1).state d).state.profiles =
      some (some (persisted_run_command o1 p e1.ipaddr)) := by
    rw [down_profiles]
    exact hfind
  rw [up_replay o2 h4 hfind2, pstrip_persisted]

theorem claim_C1_witness :
    findRun wProfile
        (command_cluster_up wState0 wExt1 wProfile wOpts1).state.profiles =
      some (some (persisted_run_command wOpts1 wProfile wExt1.ipaddr)) ∧
    (command_cluster_up
        (command_cluster_down
          (command_cluster_up wState0 wExt1 wProfile wOpts1).state
          wDownOk).state
        wExt2 wProfile wOpts2).started =
      some (persisted_run_command wOpts1 wProfile wExt1.ipaddr ++
        envTail wOpts2.env) :=
  claim_C1 wState0 wProfile wOpts1 wOpts2 wExt1 wExt2 wDownOk rfl rfl rfl
    rfl rfl rfl

/--
C2: when `up(p)` finds a reachable running instance and the active-profile
marker names a different profile `c`, the call exits with status 1, its
failure message names `c`, and the profile store is unchanged (in particular
no directory is created for `p`, and no start command is executed).
-/
theorem claim_C2 (st : ClusterState) (e : UpExt) (p c : Str) (o : Options)
    (h1 : e.instanceRunning = true) (h2 : st.marker = some c) (h3 : c ≠ p) :
    command_cluster_up st e p o =
      ⟨st, 1, some (msgAlreadyRunning (some c)), none⟩ ∧
    c <:+: msgAlreadyRunning (some c) :=
  ⟨up_conflict o h1 h2 h3,
    ⟨("Failed: Already running ".toList) ++ [quoteChar], [quoteChar, '.'],
      by simp [msgAlreadyRunning, quoted, fmtProfile, List.append_assoc]⟩⟩

theorem claim_C2_witness :
    command_cluster_up wStateDefault wRunningExt ("other".toList)
        wOptsDefault =
      ⟨wStateDefault, 1,
        some (msgAlreadyRunning (some ("default".toList))), none⟩ ∧
    ("default".toList) <:+: msgAlreadyRunning (some ("default".toList)) :=
  claim_C2 wStateDefault wRunningExt ("other".toList) ("default".toList)
    wOptsDefault rfl rfl (by decide)

/--
C3: calling `up(n)` twice in a row with no intervening `down`: the first call
on a fresh profile with a fully successful external world creates the profile
(ABSENT to ACTIVE), persists `run_command` and exits 0; the second call,
finding the instance reachable and the marker equal to `n`, is a no-op that
exits 0, executes nothing, and leaves the whole store — in particular the
persisted `run_command` — byte-identical.
-/
theorem claim_C3 (st0 : ClusterState) (ip : Option Str) (v : Str) (p : Str)
    (o1 : Options) (hfresh : findRun p st0.profiles = none) :
    (command_cluster_up st0 (allOk ip (.captured (some v))) p o1).exit = 0 ∧
    (command_cluster_up st0 (allOk ip (.captured (some v))) p o1).state.marker
      = some p ∧
    findRun p (command_cluster_up st0 (allOk ip (.captured (some v)))
        p o1).state.profiles =
      some (some (persisted_run_command o1 p ip)) ∧
    ∀ (e2 : UpExt) (o2 : Options), e2.instanceRunning = true →
      command_cluster_up
          (command_cluster_up st0 (allOk ip (.captured (some v))) p o1).state
          e2 p o2 =
        ⟨(command_cluster_up st0 (allOk ip (.captured (some v))) p o1).state,
          0, none, none⟩ := by
  have h := up_create_success st0 ip v p o1 hfresh
  rw [h]
  refine ⟨rfl, rfl, findRun_append_right hfresh _, ?_⟩
  intro e2 o2 h2
  exact up_already_running o2 h2 rfl

theorem claim_C3_witness :
    (command_cluster_up wState0 wExt1 wProfile wOpts1).exit = 0 ∧
    (command_cluster_up wState0 wExt1 wProfile wOpts1).state.marker =
      some wProfile ∧
    findRun wProfile
        (command_cluster_up wState0 wExt1 wProfile wOpts1).state.profiles =
      some (some (persisted_run_command wOpts1 wProfile (some wIp))) ∧
    command_cluster_up (command_cluster_up wState0 wExt1 wProfile wOpts1).state
        wRunningExt wProfile wOpts2 =
      ⟨(command_cluster_up wState0 wExt1 wProfile wOpts1).state, 0, none,
        none⟩ := by
  obtain ⟨a, b, c, d⟩ :=
    claim_C3 wState0 (some wIp) wVer wProfile wOpts1 rfl
  exact ⟨a, b, c, d wRunningExt wOpts2 rfl⟩

/--
C4: when `down` finds a reachable instance, and when `destroy(n)` is applied
(and confirmed) to the active profile `n`, the external stop command is
invoked and the Active Profile Marker is deleted afterwards regardless of the
stop command's exit status (the best-effort unlink is attempted
unconditionally; `cleanupOk` records its success), with the stop command's
exit status propagated to the caller.
-/
theorem claim_C4 :
    (∀ (st : ClusterState) (e : DownExt), e.instanceRunning = true →
      e.cleanupOk = true →
      (command_cluster_down st e).stopInvoked = true ∧
      (command_cluster_down st e).state.marker = none ∧
      (command_cluster_down st e).exit = e.stopRc) ∧
    (∀ (st : ClusterState) (e : DestroyExt) (p : Str),
      findRun p st.profiles ≠ none → e.confirmed = true →
      st.marker = some p → e.cleanupOk = true →
      (command_cluster_destroy st e p).stopInvoked = true ∧
      (command_cluster_destroy st e p).state.marker = none ∧
      (e.stopRc ≠ 0 → (command_cluster_destroy st e p).exit = e.stopRc)) :=
  ⟨fun st _e h1 h2 => down_stop st h1 h2,
    fun st _e p h1 h2 h3 h4 => destroy_active st p h1 h2 h3 h4⟩

theorem claim_C4_witness :
    ((command_cluster_down wStateDefault wDownFail).stopInvoked = true ∧
      (command_cluster_down wStateDefault wDownFail).state.marker = none ∧
      (command_cluster_down wStateDefault wDownFail).exit =
        wDownFail.stopRc) ∧
    ((command_cluster_destroy wStateDefault wDestroyFail
        ("default".toList)).stopInvoked = true ∧
      (command_cluster_destroy wStateDefault wDestroyFail
        ("default".toList)).state.marker = none ∧
      (wDestroyFail.stopRc ≠ 0 →
        (command_cluster_destroy wStateDefault wDestroyFail
          ("default".toList)).exit = wDestroyFail.stopRc)) :=
  ⟨claim_C4.1 wStateDefault wDownFail rfl rfl,
    claim_C4.2 wStateDefault wDestroyFail ("default".toList) (by decide) rfl
      rfl rfl⟩

/-- Fixture `down` world: no reachable instance. -/
def wDownNone : DownExt := ⟨false, 0, true⟩

/--
C5 counterexample: with profile `default` present and the marker naming it,
a `down` whose is-it-running check finds no reachable instance exits 1
without invoking the stop command and leaves the state — in particular the
Active Profile Marker — fully unchanged, so the marker exists while no
instance is reachable and is not deleted by the check, contradicting both
the exists-iff-reachable invariant and the deleted-on-empty-check clause.
-/
theorem claim_C5_counterexample :
    command_cluster_down wStateDefault wDownNone =
      ⟨wStateDefault, 1, false, none⟩ ∧
    wStateDefault.marker = some ("default".toList) :=
  ⟨rfl, rfl⟩

/--
C5 amended: the Active Profile Marker is created/overwritten on every
successful `up`; on `down` it is deleted (best-effort unlink, recorded by
`cleanupOk`) whenever a reachable instance was found, regardless of the stop
command's exit status, and likewise on a confirmed `destroy` of the active
profile; but when the is-it-running check at the start of `down` finds no
reachable instance the marker is NOT deleted (the call exits 1 with no state
change), so the marker may exist while no instance is reachable; and across
`up`, `down` and `destroy` (the latter with a successful unlink) the marker
never comes to name a profile whose directory does not exist.
-/
theorem claim_C5_amended :
    (∀ (st : ClusterState) (e : DownExt), e.instanceRunning = false →
      command_cluster_down st e = ⟨st, 1, false, none⟩) ∧
    (∀ (st : ClusterState) (e : DownExt), e.instanceRunning = true →
      e.cleanupOk = true → (command_cluster_down st e).state.marker = none) ∧
    (∀ (st : ClusterState) (e : UpExt) (p r : Str) (o : Options),
      e.instanceRunning = false → findRun p st.profiles = some (some r) →
      e.finalStartRc = 0 → e.useContextRc = 0 → e.markerWriteOk = true →
      (command_cluster_up st e p o).state.marker = some p ∧
      (command_cluster_up st e p o).exit = 0) ∧
    (∀ (st : ClusterState) (e : DestroyExt) (p : Str),
      findRun p st.profiles ≠ none → e.confirmed = true →
      st.marker = some p → e.cleanupOk = true →
      (command_cluster_destroy st e p).state.marker = none) ∧
    (∀ (st : ClusterState) (e : UpExt) (p : Str) (o : Options), markerOk st →
      markerOk (command_cluster_up st e p o).state) ∧
    (∀ (st : ClusterState) (e : DownExt), markerOk st →
      markerOk (command_cluster_down st e).state) ∧
    (∀ (st : ClusterState) (e : DestroyExt) (p : Str), e.cleanupOk = true →
      markerOk st → markerOk (command_cluster_destroy st e p).state) := by
  refine ⟨?_, ?_, ?_, ?_, ?_, ?_, ?_⟩
  · exact fun st _e h => down_no_instance st h
  · exact fun st _e h1 h2 => (down_stop st h1 h2).2.1
  · intro st e p r o h0 h1 h2 h3 h4
    rw [up_replay_success o h0 h1 h2 h3 h4]
    exact ⟨rfl, rfl⟩
  · exact fun st _e p h1 h2 h3 h4 => (destroy_active st p h1 h2 h3 h4).2.1
  · exact fun st e p o h => up_markerOk st e p o h
  · exact fun st e h => down_markerOk st e h
  · exact fun st e p h1 h2 => destroy_markerOk st e p h1 h2

theorem claim_C5_amended_witness :
    command_cluster_down wStateDefault wDownNone =
      ⟨wStateDefault, 1, false, none⟩ ∧
    (command_cluster_down wStateDefault wDownFail).state.marker = none ∧
    ((command_cluster_up wStateDefault wExt2 ("default".toList)
        wOptsDefault).state.marker = some ("default".toList) ∧
      (command_cluster_up wStateDefault wExt2 ("default".toList)
        wOptsDefault).exit = 0) ∧
    (command_cluster_destroy wStateDefault wDestroyFail
      ("default".toList)).state.marker = none ∧
    markerOk (command_cluster_up wStateDefault wExt2 ("default".toList)
      wOptsDefault).state ∧
    markerOk (command_cluster_down wStateDefault wDownFail).state ∧
    markerOk (command_cluster_destroy wStateDefault wDestroyFail
      ("default".toList)).state := by
  have hmk : markerOk wStateDefault := by
    intro c hc
    cases hc
    decide
  obtain ⟨a, b, c, d, e, f, g⟩ := claim_C5_amended
  exact ⟨a wStateDefault wDownNone rfl, b wStateDefault wDownFail rfl rfl,
    c wStateDefault wExt2 ("default".toList) ("oc cluster up".toList)
      wOptsDefault rfl (by decide) rfl rfl rfl,
    d wStateDefault wDestroyFail ("default".toList) (by decide) rfl rfl rfl,
    e wStateDefault wExt2 ("default".toList) wOptsDefault hmk,
    f wStateDefault wDownFail hmk,
    g wStateDefault wDestroyFail ("default".toList) rfl hmk⟩

/-- Fixture creation-time world whose version query raises
`CalledProcessError` with unparseable output. -/
def c6Ext : UpExt := allOk none (.calledProcessError none)

/-- Fixture options with a user-supplied `--version`. -/
def c6Opts : Options :=
  ⟨none, some ("v1.5.1".toList), none, none, false, false, 10,
    "10Gi".toList, 0, 0, [], none, none, [], "none".toList⟩

/--
C6 counterexample: during profile creation with every other external step
succeeding, a version query that fails with `CalledProcessError` and
unparseable output makes `up` abort at the version step with exit status 1
and the message `Failed: Unable to determine oc version.` — even though the
user supplied `--version v1.5.1` — instead of falling back non-fatally as
the claim states.
-/
theorem claim_C6_counterexample :
    (command_cluster_up wState0 c6Ext ("default".toList) c6Opts).exit = 1 ∧
    (command_cluster_up wState0 c6Ext ("default".toList) c6Opts).failMsg =
      some msgVersion ∧
    c6Opts.version = some ("v1.5.1".toList) ∧
    versionStep c6Opts.version c6Ext.versionOutcome = none := by
  refine ⟨?_, ?_, rfl, rfl⟩ <;> decide

/--
C6 amended: the version read-back is non-fatal exactly when the query
succeeds with parseable output, or the failed command's output is parseable,
or the failure is not a command error and the user-supplied version is a
truthy string; otherwise (command failure with unparseable output, or any
other failure when the fallback is `"unknown"`) `up` aborts at this step
with exit status 1 and `Failed: Unable to determine oc version.`, while a
non-aborting outcome lets a fully successful creation finish with exit 0.
-/
theorem claim_C6_amended :
    (∀ (uv : Option Str) (vo : VersionOutcome),
      versionStep uv vo = none ↔
        (vo = VersionOutcome.calledProcessError none ∨
          ((vo = VersionOutcome.captured none ∨
              vo = VersionOutcome.otherError) ∧
            pyOrUnknown uv = ("unknown".toList)))) ∧
    (∀ (st : ClusterState) (ip : Option Str) (vo : VersionOutcome) (p : Str)
        (o : Options), findRun p st.profiles = none →
      (command_cluster_up st (allOk ip vo) p o).exit =
        (if versionStep o.version vo = none then 1 else 0) ∧
      (command_cluster_up st (allOk ip vo) p o).failMsg =
        (if versionStep o.version vo = none then some msgVersion
          else none)) := by
  constructor
  · intro uv vo
    cases vo with
    | captured parsed =>
      cases parsed with
      | none =>
        by_cases hc : pyOrUnknown uv = ("unknown".toList) <;>
          simp [versionStep, hc]
      | some v => simp [versionStep]
    | calledProcessError parsed =>
      cases parsed with
      | none => simp [versionStep]
      | some v => simp [versionStep]
    | otherError =>
      by_cases hc : pyOrUnknown uv = ("unknown".toList) <;>
        simp [versionStep, hc]
  · intro st ip vo p o hfresh
    rw [up_fresh o rfl hfresh]
    unfold upCreate
    rw [if_neg (by simp [allOk]), if_neg (by simp [allOk]),
      if_neg (by simp [allOk])]
    simp only [upPostCreate, upCommon, upFinish, allOk,
      findRun_append_right hfresh]
    cases h : versionStep o.version vo <;> simp [h]

theorem claim_C6_amended_witness :
    (versionStep (some ("v1.5.1".toList))
        (VersionOutcome.calledProcessError none) = none ↔
      (VersionOutcome.calledProcessError none =
          VersionOutcome.calledProcessError none ∨
        ((VersionOutcome.calledProcessError none =
            VersionOutcome.captured none ∨
          VersionOutcome.calledProcessError none =
            VersionOutcome.otherError) ∧
          pyOrUnknown (some ("v1.5.1".toList)) = ("unknown".toList)))) ∧
    ((command_cluster_up wState0 (allOk none
        (VersionOutcome.calledProcessError none)) ("default".toList)
        wOptsDefault).exit =
      (if versionStep wOptsDefault.version
          (VersionOutcome.calledProcessError none) = none then 1 else 0) ∧
    (command_cluster_up wState0 (allOk none
        (VersionOutcome.calledProcessError none)) ("default".toList)
        wOptsDefault).failMsg =
      (if versionStep wOptsDefault.version
          (VersionOutcome.calledProcessError none) = none then
        some msgVersion else none)) :=
  ⟨claim_C6_amended.1 (some ("v1.5.1".toList))
      (VersionOutcome.calledProcessError none),
    claim_C6_amended.2 wState0 none (VersionOutcome.calledProcessError none)
      ("default".toList) wOptsDefault rfl⟩

/--
C7: in the command builder with no routing suffix explicitly supplied, if
the resolved IP is present (truthy) and not the loopback address, the built
command contains the `--routing-suffix` flag whose value
`apps.<profile>.<ip>.xip.io` contains both the profile name and the IP as
substrings; if the resolved IP is the loopback address or absent, no
fragment of the built command carries the `--routing-suffix` flag at all.
-/
theorem claim_C7 (o : Options) (p : Str) (ip : Option Str)
    (hrs : o.routingSuffix = none) :
    (∀ i : Str, ip = some i → i ≠ [] → i ≠ loopback →
      quoteArg rsFlag (appsSuffix p i) ∈ buildCommand o p ip ∧
      p <:+: appsSuffix p i ∧ i <:+: appsSuffix p i) ∧
    ((ip = none ∨ ip = some loopback) →
      ∀ f ∈ buildCommand o p ip, ¬ rsFlag <+: f) := by
  constructor
  · rintro i rfl hne hnl
    exact ⟨buildCommand_rs_mem o p i hrs hne hnl,
      ⟨"apps.".toList, '.' :: i ++ (".xip.io".toList),
        by simp [appsSuffix, List.append_assoc]⟩,
      ⟨("apps.".toList) ++ p ++ ['.'], ".xip.io".toList,
        by simp [appsSuffix, List.append_assoc]⟩⟩
  · exact fun hip => buildCommand_no_rs o p ip hrs hip

theorem claim_C7_witness :
    (quoteArg rsFlag (appsSuffix wProfile wIp) ∈
        buildCommand wOptsDefault wProfile (some wIp) ∧
      wProfile <:+: appsSuffix wProfile wIp ∧
      wIp <:+: appsSuffix wProfile wIp) ∧
    (∀ f ∈ buildCommand wOptsDefault wProfile (some loopback),
      ¬ rsFlag <+: f) :=
  ⟨(claim_C7 wOptsDefault wProfile (some wIp) rfl).1 wIp rfl (by decide)
      (by decide),
    (claim_C7 wOptsDefault wProfile (some loopback) rfl).2 (Or.inr rfl)⟩

/-- Fixture: `10Gi` with a trailing newline. -/
def c8Input : Str := ("10Gi".toList) ++ [nlChar]

/-- Fixture: U+0663 ARABIC-INDIC DIGIT THREE followed by `Gi` — a size
string whose digit is a non-ASCII Unicode decimal digit. -/
def c8Unicode : Str := Char.ofNat 1635 :: ("Gi".toList)

/--
C8 counterexample: the validator is `re.match('^\d+[GM]i$', value)` on a
Python 3 `str`, so it is not "exactly digits then `Gi`/`Mi`" under either
reading of "decimal digits": Python's `$` also matches just before a
trailing newline, so `10Gi\n` is accepted (returned unchanged) although it
is not of the form digits-then-`Gi`/`Mi` at all (`sizeCore` rejects it); and
`\d` matches every Unicode decimal digit, so `٣Gi` (U+0663 `Gi`) is
accepted although U+0663 is not an ASCII digit.  The claim's listed
concrete cases themselves behave as stated.
-/
theorem claim_C8_counterexample :
    VolumeSize_convert c8Input = some c8Input ∧
    sizeCore c8Input = false ∧
    VolumeSize_convert c8Unicode = some c8Unicode ∧
    Char.isDigit (Char.ofNat 1635) = false ∧
    pyDigit (Char.ofNat 1635) = true ∧
    sizeCore ("10Gi".toList) = true ∧
    VolumeSize_convert ("10gb".toList) = none ∧
    VolumeSize_convert ("Gi10".toList) = none ∧
    VolumeSize_convert [] = none := by
  decide

/--
C8 amended: the volume-size validator returns its input unchanged or fails
before any I/O, and it accepts exactly the strings consisting of one or more
Unicode decimal digits (category Nd, Python 3's `\d` — e.g. U+0663 as well
as `0`-`9`) followed by `Gi` or `Mi`, optionally followed by one trailing
newline (Python's `$` matches before a final newline); in particular it
accepts `10Gi` and `500Mi` and rejects `10gb`, `Gi10` and the empty string.
-/
theorem claim_C8_amended (cs : Str) :
    (VolumeSize_convert cs = some cs ∨ VolumeSize_convert cs = none) ∧
    ((VolumeSize_convert cs).isSome = true ↔
      ∃ d s, d ≠ [] ∧ (∀ c ∈ d, pyDigit c = true) ∧
        (s = ("Gi".toList) ∨ s = ("Mi".toList)) ∧
        (cs = d ++ s ∨ cs = d ++ s ++ [nlChar])) := by
  constructor
  · unfold VolumeSize_convert
    split
    · exact Or.inl rfl
    · exact Or.inr rfl
  · unfold VolumeSize_convert
    by_cases h : volume_size_match cs = true
    · rw [if_pos h]
      exact iff_of_true rfl ((volume_size_match_iff cs).mp h)
    · rw [if_neg h]
      refine iff_of_false (by simp) ?_
      intro hex
      exact h ((volume_size_match_iff cs).mpr hex)

theorem claim_C8_amended_witness :
    (VolumeSize_convert ("10Gi".toList) = some ("10Gi".toList) ∨
      VolumeSize_convert ("10Gi".toList) = none) ∧
    ((VolumeSize_convert ("10Gi".toList)).isSome = true ↔
      ∃ d s, d ≠ [] ∧ (∀ c ∈ d, pyDigit c = true) ∧
        (s = ("Gi".toList) ∨ s = ("Mi".toList)) ∧
        (("10Gi".toList) = d ++ s ∨
          ("10Gi".toList) = d ++ s ++ [nlChar])) :=
  claim_C8_amended ("10Gi".toList)

/--
C9: the claim-reference parser maps `myproject/myclaim` to the pair
`(myproject, myclaim)`, and rejects with a validation failure every input
with no `/` separator and every input with more than one `/` separator.
-/
theorem claim_C9 (cs : Str) :
    ClaimRef_convert ("myproject/myclaim".toList) =
      some (("myproject".toList), ("myclaim".toList)) ∧
    (cs.count '/' = 0 → ClaimRef_convert cs = none) ∧
    (2 ≤ cs.count '/' → ClaimRef_convert cs = none) := by
  refine ⟨by decide, ?_, ?_⟩
  · intro h
    exact ClaimRef_reject (by omega)
  · intro h
    exact ClaimRef_reject (by omega)

theorem claim_C9_witness :
    ClaimRef_convert ("myproject".toList) = none ∧
    ClaimRef_convert ("a/b/c".toList) = none ∧
    ClaimRef_convert ("myproject/myclaim".toList) =
      some (("myproject".toList), ("myclaim".toList)) :=
  ⟨(claim_C9 ("myproject".toList)).2.1 (by decide),
    (claim_C9 ("a/b/c".toList)).2.2 (by decide),
    (claim_C9 []).1⟩

/--
C10: for the user name `developer`, `users remove` always exits with status
1 before the confirmation prompt is shown and before the credential database
is read or mutated — whatever the external state (cluster running or not,
marker present or not, password file present or not) — so the developer
account can never be removed through this interface.
-/
theorem claim_C10 (e : UsersRemoveExt) :
    command_cluster_users_remove e ("developer".toList) =
      ⟨1, false, false, false⟩ := by
  unfold command_cluster_users_remove
  rcases e with ⟨cr, mk, pf, cf, ue, rc⟩
  cases cr <;> cases mk <;> cases pf <;> simp

theorem claim_C10_witness :
    command_cluster_users_remove
        ⟨true, some ("default".toList), true, true, true, 0⟩
        ("developer".toList) =
      ⟨1, false, false, false⟩ :=
  claim_C10 ⟨true, some ("default".toList), true, true, true, 0⟩

end Powershift
